import Mathlib

/-
Verification development for the Gluck-Sphere device agent
(src/main.c, src/hardwarefunctions.h, src/hardwarefunctions_simulated.h).

The C code is shallowly embedded: each callback/handler becomes a pure
function on an explicit state record `SysState`.  External collaborators
(network stack, cloud client, ADC, timer consume results, the parson JSON
library) are modelled as parameters of the handlers, following the code's
use of their results.  Two ghost counters (`attempts`, `twinParses`) count
calls of `SetUpAzureIoTHubClient` and of `json_parse_string`; they perturb
no other logic.
-/

namespace GluckSphere

/-- GPIO output values, from applibs/gpio.h (`GPIO_Value_Low`, `GPIO_Value_High`). -/
inductive GPIO_Value where
  | low
  | high
deriving DecidableEq, Repr

/-- Exit codes from the `ExitCode` enum in src/main.c (only the ones the
embedded handlers can produce). -/
def ExitCode_Success : Nat := 0

def ExitCode_ButtonTimer_Consume : Nat := 3

def ExitCode_AzureTimer_Consume : Nat := 4

def ExitCode_IsButtonPressed_GetValue : Nat := 11

def ExitCode_InterfaceConnectionStatus_Failed : Nat := 16

def ExitCode_PayloadSize_TooLarge : Nat := 22

def ExitCode_AdcTimerHandler_Poll : Nat := 24

/-- `MAX_DEVICE_TWIN_PAYLOAD_SIZE` from src/main.c. -/
def MAX_DEVICE_TWIN_PAYLOAD_SIZE : Nat := 512

/-- `AzureIoTDefaultPollPeriodSeconds` from src/main.c. -/
def AzureIoTDefaultPollPeriodSeconds : Int := 1

/-- `AzureIoTPollPeriodsPerTelemetry` from src/main.c. -/
def AzureIoTPollPeriodsPerTelemetry : Int := 300

/-- `AzureIoTMinReconnectPeriodSeconds` from src/main.c. -/
def AzureIoTMinReconnectPeriodSeconds : Int := 60

/-- `AzureIoTMaxReconnectPeriodSeconds` from src/main.c. -/
def AzureIoTMaxReconnectPeriodSeconds : Int := 10 * 60

/-- The `IoTHubClientAuthenticationState` enum of src/main.c. -/
inductive IoTHubClientAuthenticationState where
  | notAuthenticated
  | authenticationInitiated
  | authenticated
deriving DecidableEq, Repr

/-- The mutable globals of the hardware-variant build, gathered into one
record.  `attempts` and `twinParses` are ghost call counters.
`insulinTimer` is the armed one-shot delay of the timer pointed to by the
global `insulinToInject` (src/hardwarefunctions.h line 8), which starts
NULL and is never assigned. -/
structure SysState where
  exitCode : Nat
  iotHubClientAuthenticationState : IoTHubClientAuthenticationState
  azureIoTPollPeriodSeconds : Int
  azureTimerPeriod : Int
  telemetryCount : Int
  statusLedOn : Bool
  statusLedOutput : GPIO_Value
  pumpOutput : GPIO_Value
  insulinTimer : Option Int
  sendMessageButtonState : GPIO_Value
  attempts : Nat
  twinParses : Nat
deriving DecidableEq, Repr

/-- C `isspace` on the characters it accepts. -/
def isSpaceChar (c : Char) : Bool :=
  c = ' ' || c = '\t' || c = '\n' || c = '\r' || c = '\x0b' || c = '\x0c'

/-- Digit-consuming loop of C `atoi`: accumulate decimal digits, stop at the
first non-digit. -/
def atoiLoop : List Char → Int → Int
  | [], acc => acc
  | c :: cs, acc =>
      if c.isDigit then atoiLoop cs (acc * 10 + ((c.toNat : Int) - 48))
      else acc

/-- C `atoi`: skip leading whitespace, optional sign, then decimal digits. -/
def atoi (s : List Char) : Int :=
  match s.dropWhile isSpaceChar with
  | '-' :: rest => - atoiLoop rest 0
  | '+' :: rest => atoiLoop rest 0
  | rest => atoiLoop rest 0

/-- Outcome of `Networking_GetInterfaceConnectionStatus` as used by
`AzureTimerEventHandler` in src/main.c: call succeeded with the
internet-connected flag set, succeeded without it, or failed with
errno equal to EAGAIN or some other errno. -/
inductive LinkStatus where
  | upInternet
  | upNoInternet
  | failEagain
  | failOther
deriving DecidableEq, Repr

/-- The backoff computation in the failure branch of
`SetUpAzureIoTHubClient` (src/main.c lines 419-427): seed with the minimum
period when at the default, otherwise double and clamp to the maximum. -/
def nextBackoff (p : Int) : Int :=
  if p = AzureIoTDefaultPollPeriodSeconds then AzureIoTMinReconnectPeriodSeconds
  else if p * 2 > AzureIoTMaxReconnectPeriodSeconds then
    AzureIoTMaxReconnectPeriodSeconds
  else p * 2

/-- `SetUpAzureIoTHubClient` (src/main.c lines 401-451).  `setupOk` is the
result of the client-creation call (DAA or DPS, external collaborator).
On failure the poll period is backed off and the timer rescheduled; on
success the period is reset to the default, the timer rescheduled, and the
authentication state set to `authenticationInitiated`.  The ghost field
`attempts` counts invocations. -/
def SetUpAzureIoTHubClient (setupOk : Bool) (s : SysState) : SysState :=
  let s1 := { s with attempts := s.attempts + 1 }
  if setupOk = false then
    let p := nextBackoff s1.azureIoTPollPeriodSeconds
    { s1 with azureIoTPollPeriodSeconds := p, azureTimerPeriod := p }
  else
    { s1 with
        azureIoTPollPeriodSeconds := AzureIoTDefaultPollPeriodSeconds,
        azureTimerPeriod := AzureIoTDefaultPollPeriodSeconds,
        iotHubClientAuthenticationState :=
          IoTHubClientAuthenticationState.authenticationInitiated }

/-- `ConnectionStatusCallback` (src/main.c lines 381-396).  `authenticated`
is whether `result == IOTHUB_CLIENT_CONNECTION_AUTHENTICATED`.  The success
branch also pushes static reported twin state (external send, no local
state). -/
def ConnectionStatusCallback (authenticated : Bool) (s : SysState) : SysState :=
  if authenticated = false then
    { s with iotHubClientAuthenticationState :=
        IoTHubClientAuthenticationState.notAuthenticated }
  else
    { s with iotHubClientAuthenticationState :=
        IoTHubClientAuthenticationState.authenticated }

/-- `SendSimulatedTelemetry` of src/hardwarefunctions.h (lines 156-174):
a failed `ADC_Poll` sets the fatal exit code; otherwise the telemetry send
is external and touches no local state. -/
def SendSimulatedTelemetry (adcOk : Bool) (s : SysState) : SysState :=
  if adcOk = false then { s with exitCode := ExitCode_AdcTimerHandler_Poll }
  else s

/-- `AzureTimerEventHandler` (src/main.c lines 230-264).  `consumeOk` is
whether `ConsumeEventLoopTimerEvent` returned 0; `link` the network query
outcome; `setupOk` and `adcOk` feed the called functions.  The trailing
`IoTHubDeviceClient_LL_DoWork` only drives the external client (inbound
callbacks are separate events of the model). -/
def AzureTimerEventHandler (consumeOk : Bool) (link : LinkStatus)
    (setupOk : Bool) (adcOk : Bool) (s : SysState) : SysState :=
  if consumeOk = false then { s with exitCode := ExitCode_AzureTimer_Consume }
  else if link = LinkStatus.failOther then
    { s with exitCode := ExitCode_InterfaceConnectionStatus_Failed }
  else
    let s1 :=
      if link = LinkStatus.upInternet ∧
          s.iotHubClientAuthenticationState =
            IoTHubClientAuthenticationState.notAuthenticated then
        SetUpAzureIoTHubClient setupOk s
      else s
    if s1.iotHubClientAuthenticationState =
        IoTHubClientAuthenticationState.authenticated then
      if s1.telemetryCount + 1 = AzureIoTPollPeriodsPerTelemetry then
        SendSimulatedTelemetry adcOk { s1 with telemetryCount := 0 }
      else { s1 with telemetryCount := s1.telemetryCount + 1 }
    else s1

/-- `ButtonPollTimerEventHandler` with `IsButtonPressed` inlined
(src/main.c lines 218-227 and 724-739).  `readState` is the result of
`GPIO_GetValue`: `none` on failure, otherwise the value read.  A detected
press only sends telemetry (external). -/
def ButtonPollTimerEventHandler (consumeOk : Bool)
    (readState : Option GPIO_Value) (s : SysState) : SysState :=
  if consumeOk = false then { s with exitCode := ExitCode_ButtonTimer_Consume }
  else
    match readState with
    | none => { s with exitCode := ExitCode_IsButtonPressed_GetValue }
    | some newState => { s with sendMessageButtonState := newState }

/-- `DeviceTwinCallback` (src/main.c lines 526-577).  `parsed` abstracts
the external parson library: `none` when `json_parse_string` fails,
`some v` when it succeeds with `v` the result of
`json_object_dotget_boolean(desired, StatusLED)` (`none` for -1/absent).
Reaching the parse is counted in the ghost field `twinParses`; the
trailing `TwinReportState` is an external send. -/
def DeviceTwinCallback (payloadSize : Nat) (parsed : Option (Option Bool))
    (s : SysState) : SysState :=
  if payloadSize > MAX_DEVICE_TWIN_PAYLOAD_SIZE then
    { s with exitCode := ExitCode_PayloadSize_TooLarge }
  else
    match parsed with
    | none => { s with twinParses := s.twinParses + 1 }
    | some none => { s with twinParses := s.twinParses + 1 }
    | some (some b) =>
        { s with twinParses := s.twinParses + 1,
                 statusLedOn := b,
                 statusLedOutput :=
                   if b then GPIO_Value.low else GPIO_Value.high }

/-- The method name `TriggerAlarm` recognized by both dispatch variants. -/
def methodTriggerAlarm : String := "TriggerAlarm"

/-- The method name `InjectInsulin` recognized by both dispatch variants. -/
def methodInjectInsulin : String := "InjectInsulin"

/-- The body returned for unrecognized method names: the two-character
string of an opening and a closing curly brace. -/
def emptyJsonBody : String := "\x7b\x7d"

/-- Response of a direct-method dispatch: the JSON body and the returned
status code.  The status is an `Option` so that a path that never assigns
the C local `result` yields `none` (uninitialized). -/
structure MethodResponse where
  response : String
  result : Option Int
deriving DecidableEq, Repr

namespace Hw

/-- `DeviceMethodCallback` of src/hardwarefunctions.h (lines 177-216).
`InjectInsulin` parses the payload with `atoi` and drives the pump output
high, but arms no timer: line 200 discards the disarmed timer returned by
`CreateEventLoopDisarmedTimer` (C passes the `insulinToInject` pointer by
value, so the global is not assigned), and line 201 calls
`SetEventLoopTimerOneShot` on `insulinToInject`, which is still NULL, so
the armed state of `insulinToInject` (the field `insulinTimer`) is
unchanged and no one-shot with handler `InsulinTimerEventHandler` ever
becomes pending. -/
def DeviceMethodCallback (methodName : String) (payload : List Char)
    (s : SysState) : SysState × MethodResponse :=
  if methodName = methodTriggerAlarm then
    (s, { response := "\"Alarm Triggered\"", result := some 200 })
  else if methodName = methodInjectInsulin then
    let _intPayload := atoi payload
    ({ s with pumpOutput := GPIO_Value.high },
     { response := "\"Injecting insulin\"", result := some 100 })
  else
    (s, { response := emptyJsonBody, result := some (-1) })

/-- `InsulinTimerEventHandler` of src/hardwarefunctions.h (lines 219-228):
consume the timer event (failure sets the same exit code the Azure timer
uses), then drive the pump output low.  The fired one-shot timer becomes
inert. -/
def InsulinTimerEventHandler (consumeOk : Bool) (s : SysState) : SysState :=
  if consumeOk = false then { s with exitCode := ExitCode_AzureTimer_Consume }
  else { s with pumpOutput := GPIO_Value.low, insulinTimer := none }

end Hw

namespace Sim

/-- `DeviceMethodCallback` of src/hardwarefunctions_simulated.h
(lines 95-127).  The `InjectInsulin` branch calls `atoi` and logs, but
assigns neither the local `result` (hence `none`) nor any device state. -/
def DeviceMethodCallback (methodName : String) (payload : List Char)
    (s : SysState) : SysState × MethodResponse :=
  if methodName = methodTriggerAlarm then
    (s, { response := "\"Alarm Triggered\"", result := some 200 })
  else if methodName = methodInjectInsulin then
    let _intPayload := atoi payload
    (s, { response := "\"Injecting insulin\"", result := none })
  else
    (s, { response := emptyJsonBody, result := some (-1) })

end Sim

/-- `SIMULATED` from src/main.c line 194. -/
def SIMULATED : Nat := 1

/-- The dispatch compiled into the shipped build: src/main.c includes
hardwarefunctions_simulated.h when `SIMULATED == 1`, hardwarefunctions.h
otherwise. -/
def activeDeviceMethodCallback :
    String → List Char → SysState → SysState × MethodResponse :=
  if SIMULATED = 1 then Sim.DeviceMethodCallback else Hw.DeviceMethodCallback

/-- Events deliverable to the hardware-variant build once initialized:
the two periodic timers, the insulin one-shot timer, and the three cloud
callbacks.  Under the scheduler contract a one-shot firing
(`insulinFire`) presupposes an armed timer; `insulinFireDeliverable`
states that side condition. -/
inductive Event where
  | azureTick (consumeOk : Bool) (link : LinkStatus) (setupOk : Bool) (adcOk : Bool)
  | buttonPoll (consumeOk : Bool) (readState : Option GPIO_Value)
  | connStatus (authenticated : Bool)
  | methodCall (name : String) (payload : List Char)
  | twinUpdate (payloadSize : Nat) (parsed : Option (Option Bool))
  | insulinFire (consumeOk : Bool)
deriving DecidableEq, Repr

/-- One event dispatched by the event loop of the hardware-variant build. -/
def step (e : Event) (s : SysState) : SysState :=
  match e with
  | Event.azureTick c link so ao => AzureTimerEventHandler c link so ao s
  | Event.buttonPoll c r => ButtonPollTimerEventHandler c r s
  | Event.connStatus ok => ConnectionStatusCallback ok s
  | Event.methodCall name payload => (Hw.DeviceMethodCallback name payload s).1
  | Event.twinUpdate size parsed => DeviceTwinCallback size parsed s
  | Event.insulinFire c => Hw.InsulinTimerEventHandler c s

/-- The state right after `InitPeripheralsAndHandlers` of
src/hardwarefunctions.h succeeds: exit code success, not authenticated,
poll period at the default, telemetry counter zero, status LED opened
driving High, pump opened driving Low, no insulin timer armed, button
state High. -/
def initialAzureState : SysState :=
  { exitCode := ExitCode_Success,
    iotHubClientAuthenticationState :=
      IoTHubClientAuthenticationState.notAuthenticated,
    azureIoTPollPeriodSeconds := AzureIoTDefaultPollPeriodSeconds,
    azureTimerPeriod := AzureIoTDefaultPollPeriodSeconds,
    telemetryCount := 0,
    statusLedOn := false,
    statusLedOutput := GPIO_Value.high,
    pumpOutput := GPIO_Value.low,
    insulinTimer := none,
    sendMessageButtonState := GPIO_Value.high,
    attempts := 0,
    twinParses := 0 }

/-- The main loop of src/hardwarefunctions.h lines 35-41: keep dispatching
events while the exit code is success. -/
def processEvents : List Event → SysState → SysState
  | [], s => s
  | e :: es, s =>
      if s.exitCode = ExitCode_Success then processEvents es (step e s) else s

/-- The successive states produced by consecutive failed authentication
attempts: on each Azure tick the link is up, the client is not yet
authenticated, and the client setup call fails. -/
def failedAttempts : Nat → SysState
  | 0 => initialAzureState
  | n + 1 =>
      step (Event.azureTick true LinkStatus.upInternet false true)
        (failedAttempts n)

/-- Whether the main loop of src/hardwarefunctions.h keeps running
(`while (exitCode == ExitCode_Success)`). -/
def mainLoopContinues (s : SysState) : Bool :=
  s.exitCode = ExitCode_Success

/-- Under the scheduler contract a one-shot timer fires only while armed:
a firing of the insulin timer is deliverable in a state only if
`insulinTimer` holds an armed delay. -/
def insulinFireDeliverable (s : SysState) : Bool :=
  s.insulinTimer.isSome

/-- The actions of `InitPeripheralsAndHandlers` of src/hardwarefunctions.h
(lines 53-132), in source order. -/
inductive InitStep where
  | setupSigTermHandler
  | createEventLoop
  | openButtonInput
  | openStatusLedOutput (initial : GPIO_Value)
  | openAdcController
  | getAdcSampleBitCount
  | setAdcReferenceVoltage
  | openPumpOutput (initial : GPIO_Value)
  | createButtonPollTimer
  | setAzurePollPeriodDefault
  | createAzureTimer
deriving DecidableEq, Repr

/-- The order in which `InitPeripheralsAndHandlers` of
src/hardwarefunctions.h performs its actions. -/
def InitPeripheralsAndHandlers_order : List InitStep :=
  [InitStep.setupSigTermHandler,
   InitStep.createEventLoop,
   InitStep.openButtonInput,
   InitStep.openStatusLedOutput GPIO_Value.high,
   InitStep.openAdcController,
   InitStep.getAdcSampleBitCount,
   InitStep.setAdcReferenceVoltage,
   InitStep.openPumpOutput GPIO_Value.low,
   InitStep.createButtonPollTimer,
   InitStep.setAzurePollPeriodDefault,
   InitStep.createAzureTimer]

/-- The actions of `ClosePeripheralsAndHandlers` of src/hardwarefunctions.h
(lines 136-153).  `setPump` is the action that driving the pump output
during teardown would be; the source never performs it. -/
inductive CloseStep where
  | disposeButtonPollTimer
  | disposeAzureTimer
  | disposeInsulinTimer
  | closeEventLoop
  | setStatusLed (v : GPIO_Value)
  | setPump (v : GPIO_Value)
  | closeButtonFd
  | closeStatusLedFd
  | closeAdcFd
  | closePumpFd
deriving DecidableEq, Repr

/-- The order in which `ClosePeripheralsAndHandlers` of
src/hardwarefunctions.h performs its actions. -/
def ClosePeripheralsAndHandlers_order : List CloseStep :=
  [CloseStep.disposeButtonPollTimer,
   CloseStep.disposeAzureTimer,
   CloseStep.disposeInsulinTimer,
   CloseStep.closeEventLoop,
   CloseStep.setStatusLed GPIO_Value.high,
   CloseStep.closeButtonFd,
   CloseStep.closeStatusLedFd,
   CloseStep.closeAdcFd,
   CloseStep.closePumpFd]

/-- Effect of `ClosePeripheralsAndHandlers` of src/hardwarefunctions.h on
the embedded state: the timers are disposed (the insulin one-shot becomes
disarmed) and the status LED is driven High; the pump output is not
written. -/
def ClosePeripheralsAndHandlers (s : SysState) : SysState :=
  { s with insulinTimer := none, statusLedOutput := GPIO_Value.high }

/-- `main` of src/hardwarefunctions.h after successful initialization:
run the loop, then tear down. -/
def runMain (events : List Event) : SysState :=
  ClosePeripheralsAndHandlers (processEvents events initialAzureState)

end GluckSphere

namespace GluckSphere

/- Frame lemmas: which fields each handler can touch. -/

theorem ButtonPoll_pump_frame (c : Bool) (r : Option GPIO_Value) (s : SysState) :
    (ButtonPollTimerEventHandler c r s).pumpOutput = s.pumpOutput := by
  unfold ButtonPollTimerEventHandler
  cases c <;> cases r <;> rfl

theorem SetUp_pump_frame (so : Bool) (s : SysState) :
    (SetUpAzureIoTHubClient so s).pumpOutput = s.pumpOutput := by
  unfold SetUpAzureIoTHubClient
  cases so <;> rfl

theorem SendTel_pump_frame (a : Bool) (s : SysState) :
    (SendSimulatedTelemetry a s).pumpOutput = s.pumpOutput := by
  unfold SendSimulatedTelemetry
  cases a <;> rfl

theorem AzureTick_pump_frame (c : Bool) (l : LinkStatus) (so ao : Bool)
    (s : SysState) :
    (AzureTimerEventHandler c l so ao s).pumpOutput = s.pumpOutput := by
  unfold AzureTimerEventHandler
  cases c with
  | false => rfl
  | true =>
    simp only [Bool.true_eq_false, if_false, ite_false]
    split_ifs <;>
      simp [SetUp_pump_frame, SendTel_pump_frame]

theorem ConnStatus_pump_frame (b : Bool) (s : SysState) :
    (ConnectionStatusCallback b s).pumpOutput = s.pumpOutput := by
  unfold ConnectionStatusCallback
  cases b <;> rfl

theorem Twin_pump_frame (n : Nat) (p : Option (Option Bool)) (s : SysState) :
    (DeviceTwinCallback n p s).pumpOutput = s.pumpOutput := by
  unfold DeviceTwinCallback
  rcases p with _ | (_ | b) <;> split <;> rfl

theorem HwMethod_pump (name : String) (payload : List Char) (s : SysState) :
    ((Hw.DeviceMethodCallback name payload s).1.pumpOutput = s.pumpOutput) ∨
    ((Hw.DeviceMethodCallback name payload s).1.pumpOutput = GPIO_Value.high) := by
  unfold Hw.DeviceMethodCallback
  split_ifs <;> simp

theorem ButtonPoll_period_frame (c : Bool) (r : Option GPIO_Value) (s : SysState) :
    (ButtonPollTimerEventHandler c r s).azureIoTPollPeriodSeconds =
      s.azureIoTPollPeriodSeconds := by
  unfold ButtonPollTimerEventHandler
  cases c <;> cases r <;> rfl

theorem ConnStatus_period_frame (b : Bool) (s : SysState) :
    (ConnectionStatusCallback b s).azureIoTPollPeriodSeconds =
      s.azureIoTPollPeriodSeconds := by
  unfold ConnectionStatusCallback
  cases b <;> rfl

theorem Twin_period_frame (n : Nat) (p : Option (Option Bool)) (s : SysState) :
    (DeviceTwinCallback n p s).azureIoTPollPeriodSeconds =
      s.azureIoTPollPeriodSeconds := by
  unfold DeviceTwinCallback
  rcases p with _ | (_ | b) <;> split <;> rfl

theorem HwMethod_period_frame (name : String) (payload : List Char) (s : SysState) :
    ((Hw.DeviceMethodCallback name payload s).1.azureIoTPollPeriodSeconds =
      s.azureIoTPollPeriodSeconds) := by
  unfold Hw.DeviceMethodCallback
  split_ifs <;> rfl

theorem InsulinFire_period_frame (c : Bool) (s : SysState) :
    (Hw.InsulinTimerEventHandler c s).azureIoTPollPeriodSeconds =
      s.azureIoTPollPeriodSeconds := by
  unfold Hw.InsulinTimerEventHandler
  cases c <;> rfl

theorem SendTel_period_frame (a : Bool) (s : SysState) :
    (SendSimulatedTelemetry a s).azureIoTPollPeriodSeconds =
      s.azureIoTPollPeriodSeconds := by
  unfold SendSimulatedTelemetry
  cases a <;> rfl

theorem SendTel_attempts_frame (a : Bool) (s : SysState) :
    (SendSimulatedTelemetry a s).attempts = s.attempts := by
  unfold SendSimulatedTelemetry
  cases a <;> rfl

theorem AzureTick_down_frame (c so ao : Bool) (s : SysState) :
    ((step (Event.azureTick c LinkStatus.upNoInternet so ao) s).attempts =
      s.attempts) ∧
    ((step (Event.azureTick c LinkStatus.upNoInternet so ao) s).azureIoTPollPeriodSeconds =
      s.azureIoTPollPeriodSeconds) := by
  obtain ⟨ec, auth, pp, tp, tc, lon, lout, po, it, bs, att, twp⟩ := s
  unfold step AzureTimerEventHandler SendSimulatedTelemetry
  cases c <;> cases auth <;> cases ao <;> simp_all <;> split_ifs <;>
    exact ⟨rfl, rfl⟩

theorem failedTick_eq (ao : Bool) (s : SysState)
    (h : s.iotHubClientAuthenticationState =
      IoTHubClientAuthenticationState.notAuthenticated) :
    step (Event.azureTick true LinkStatus.upInternet false ao) s =
      { s with
          attempts := s.attempts + 1,
          azureIoTPollPeriodSeconds := nextBackoff s.azureIoTPollPeriodSeconds,
          azureTimerPeriod := nextBackoff s.azureIoTPollPeriodSeconds } := by
  obtain ⟨ec, auth, pp, tp, tc, lon, lout, po, it, bs, att, twp⟩ := s
  simp only at h
  subst h
  unfold step AzureTimerEventHandler SetUpAzureIoTHubClient
  simp

theorem nextBackoff_bounds (p : Int) (h1 : 1 ≤ p) (h2 : p ≤ 600) :
    p ≤ nextBackoff p ∧ 1 ≤ nextBackoff p ∧ nextBackoff p ≤ 600 := by
  simp only [nextBackoff, AzureIoTDefaultPollPeriodSeconds,
    AzureIoTMinReconnectPeriodSeconds, AzureIoTMaxReconnectPeriodSeconds]
  split_ifs <;> omega

theorem failedAttempts_inv (n : Nat) :
    (failedAttempts n).iotHubClientAuthenticationState =
      IoTHubClientAuthenticationState.notAuthenticated ∧
    1 ≤ (failedAttempts n).azureIoTPollPeriodSeconds ∧
    (failedAttempts n).azureIoTPollPeriodSeconds ≤ 600 := by
  induction n with
  | zero => exact ⟨rfl, by decide, by decide⟩
  | succ n ih =>
    obtain ⟨h1, h2, h3⟩ := ih
    have hb := nextBackoff_bounds _ h2 h3
    rw [failedAttempts, failedTick_eq _ _ h1]
    exact ⟨h1, hb.2.1, hb.2.2⟩

/-- Claim C4: over consecutive failed authentication attempts starting from
the default poll period, the backoff period never decreases from one
attempt to the next and never exceeds the maximum reconnect period; the
first three failed attempts from the 1-second default produce the periods
60, 120 and 240 seconds. -/
theorem C4_backoff_monotone_bounded :
    (∀ n : Nat,
      (failedAttempts n).azureIoTPollPeriodSeconds ≤
        (failedAttempts (n + 1)).azureIoTPollPeriodSeconds) ∧
    (∀ n : Nat,
      (failedAttempts n).azureIoTPollPeriodSeconds ≤
        AzureIoTMaxReconnectPeriodSeconds) ∧
    (failedAttempts 1).azureIoTPollPeriodSeconds = 60 ∧
    (failedAttempts 2).azureIoTPollPeriodSeconds = 120 ∧
    (failedAttempts 3).azureIoTPollPeriodSeconds = 240 := by
  refine ⟨?_, ?_, by decide, by decide, by decide⟩
  · intro n
    obtain ⟨h1, h2, h3⟩ := failedAttempts_inv n
    have hb := nextBackoff_bounds _ h2 h3
    have he : failedAttempts (n + 1) =
        step (Event.azureTick true LinkStatus.upInternet false true)
          (failedAttempts n) := rfl
    rw [he, failedTick_eq _ _ h1]
    exact hb.1
  · intro n
    obtain ⟨_, _, h3⟩ := failedAttempts_inv n
    simpa [AzureIoTMaxReconnectPeriodSeconds] using h3

/-- Claim C9: a connectivity tick on which the link is reported down (the
interface query succeeds but the internet-connected flag is clear) makes
no authentication attempt and leaves the backoff period unchanged; after
three such down ticks from the initialized state nothing has changed, and
the first tick with the link up makes exactly one authentication attempt. -/
theorem C9_link_down_no_attempt :
    (∀ (c so ao : Bool) (s : SysState),
      ((step (Event.azureTick c LinkStatus.upNoInternet so ao) s).attempts =
        s.attempts) ∧
      ((step (Event.azureTick c LinkStatus.upNoInternet so ao) s).azureIoTPollPeriodSeconds =
        s.azureIoTPollPeriodSeconds)) ∧
    (step (Event.azureTick true LinkStatus.upNoInternet true true)
        (step (Event.azureTick true LinkStatus.upNoInternet true true)
          (step (Event.azureTick true LinkStatus.upNoInternet true true)
            initialAzureState)) = initialAzureState) ∧
    ((step (Event.azureTick true LinkStatus.upInternet true true)
        (step (Event.azureTick true LinkStatus.upNoInternet true true)
          (step (Event.azureTick true LinkStatus.upNoInternet true true)
            (step (Event.azureTick true LinkStatus.upNoInternet true true)
              initialAzureState)))).attempts = 1) := by
  exact ⟨fun c so ao s => AzureTick_down_frame c so ao s, by decide, by decide⟩

/-- Claim C2 (amended): an oversized desired-state payload is rejected
before parsing — the parse/apply path is never invoked and all twin and
LED state is unchanged — but the rejection is not benign: the process-wide
exit code is set to `ExitCode_PayloadSize_TooLarge`, so the main loop
stops instead of continuing. -/
theorem C2_oversized_twin_rejected_fatal :
    ∀ (s : SysState) (payloadSize : Nat) (parsed : Option (Option Bool)),
      payloadSize > MAX_DEVICE_TWIN_PAYLOAD_SIZE →
      DeviceTwinCallback payloadSize parsed s =
        { s with exitCode := ExitCode_PayloadSize_TooLarge } ∧
      (DeviceTwinCallback payloadSize parsed s).twinParses = s.twinParses ∧
      (DeviceTwinCallback payloadSize parsed s).statusLedOn = s.statusLedOn ∧
      (DeviceTwinCallback payloadSize parsed s).statusLedOutput =
        s.statusLedOutput ∧
      mainLoopContinues (DeviceTwinCallback payloadSize parsed s) = false := by
  intro s payloadSize parsed h
  have he : DeviceTwinCallback payloadSize parsed s =
      { s with exitCode := ExitCode_PayloadSize_TooLarge } := by
    unfold DeviceTwinCallback
    rw [if_pos h]
  exact ⟨he, by rw [he], by rw [he], by rw [he], by rw [he]; rfl⟩

/-- Claim C2 is false as stated: on a 513-byte desired-state payload the
process-wide exit flag does not stay at success. -/
theorem C2_counterexample :
    (DeviceTwinCallback 513 none initialAzureState).exitCode ≠
      ExitCode_Success := by
  decide

/-- Instance of the amended C2 theorem at payload size 513. -/
theorem C2_witness :
    (513 > MAX_DEVICE_TWIN_PAYLOAD_SIZE) ∧
    (DeviceTwinCallback 513 none initialAzureState =
        { initialAzureState with exitCode := ExitCode_PayloadSize_TooLarge } ∧
      (DeviceTwinCallback 513 none initialAzureState).twinParses =
        initialAzureState.twinParses ∧
      (DeviceTwinCallback 513 none initialAzureState).statusLedOn =
        initialAzureState.statusLedOn ∧
      (DeviceTwinCallback 513 none initialAzureState).statusLedOutput =
        initialAzureState.statusLedOutput ∧
      mainLoopContinues (DeviceTwinCallback 513 none initialAzureState) =
        false) :=
  ⟨by decide, C2_oversized_twin_rejected_fatal initialAzureState 513 none
      (by decide)⟩

/-- Claim C6: any method name other than the two recognized commands makes
both dispatch variants return the empty-object body with status -1, a
negative code, and mutate no state at all (the returned state is exactly
the input state, so actuation, timer, connectivity, backoff, telemetry and
twin fields are all untouched). -/
theorem C6_unrecognized_noop :
    ∀ (name : String) (payload : List Char) (s : SysState),
      name ≠ methodTriggerAlarm → name ≠ methodInjectInsulin →
      Hw.DeviceMethodCallback name payload s =
        (s, { response := emptyJsonBody, result := some (-1) }) ∧
      Sim.DeviceMethodCallback name payload s =
        (s, { response := emptyJsonBody, result := some (-1) }) ∧
      ((-1 : Int) < 0) := by
  intro name payload s h1 h2
  refine ⟨?_, ?_, by decide⟩
  · unfold Hw.DeviceMethodCallback
    rw [if_neg h1, if_neg h2]
  · unfold Sim.DeviceMethodCallback
    rw [if_neg h1, if_neg h2]

/-- Instance of the C6 theorem at the unrecognized name Reboot. -/
theorem C6_witness :
    (("Reboot" : String) ≠ methodTriggerAlarm) ∧
    (("Reboot" : String) ≠ methodInjectInsulin) ∧
    (Hw.DeviceMethodCallback ("Reboot") [] initialAzureState =
        (initialAzureState,
          { response := emptyJsonBody, result := some (-1) }) ∧
      Sim.DeviceMethodCallback ("Reboot") [] initialAzureState =
        (initialAzureState,
          { response := emptyJsonBody, result := some (-1) }) ∧
      ((-1 : Int) < 0)) :=
  ⟨by decide, by decide,
    C6_unrecognized_noop ("Reboot") [] initialAzureState (by decide)
      (by decide)⟩

/-- Claim C10: with `SIMULATED == 1` the simulated dispatch variant is the
one compiled in, and its InjectInsulin branch never assigns the returned
status code (modelled as `none`), while every other branch of that
dispatch does assign it. -/
theorem C10_sim_uninitialized_result :
    (activeDeviceMethodCallback = Sim.DeviceMethodCallback) ∧
    (∀ (payload : List Char) (s : SysState),
      (Sim.DeviceMethodCallback methodInjectInsulin payload s).2.result =
        none) ∧
    (∀ (name : String) (payload : List Char) (s : SysState),
      name ≠ methodInjectInsulin →
      ((Sim.DeviceMethodCallback name payload s).2.result).isSome = true) := by
  refine ⟨rfl, ?_, ?_⟩
  · intro payload s
    have h : methodInjectInsulin ≠ methodTriggerAlarm := by decide
    simp [Sim.DeviceMethodCallback, h]
  · intro name payload s h
    unfold Sim.DeviceMethodCallback
    split_ifs <;> simp_all

/-- Instance of the C10 theorem at the name TriggerAlarm, which does assign
the status code. -/
theorem C10_witness :
    (methodTriggerAlarm ≠ methodInjectInsulin) ∧
    ((Sim.DeviceMethodCallback methodTriggerAlarm [] initialAzureState).2.result).isSome =
      true :=
  ⟨by decide,
    C10_sim_uninitialized_result.2.2 methodTriggerAlarm [] initialAzureState
      (by decide)⟩

theorem succTick_eq (ao : Bool) (s : SysState)
    (h : s.iotHubClientAuthenticationState =
      IoTHubClientAuthenticationState.notAuthenticated) :
    step (Event.azureTick true LinkStatus.upInternet true ao) s =
      { s with
          attempts := s.attempts + 1,
          azureIoTPollPeriodSeconds := AzureIoTDefaultPollPeriodSeconds,
          azureTimerPeriod := AzureIoTDefaultPollPeriodSeconds,
          iotHubClientAuthenticationState :=
            IoTHubClientAuthenticationState.authenticationInitiated } := by
  obtain ⟨ec, auth, pp, tp, tc, lon, lout, po, it, bs, att, twp⟩ := s
  simp only at h
  subst h
  unfold step AzureTimerEventHandler SetUpAzureIoTHubClient
  simp

theorem AzureTick_period_frame_noSetup (c : Bool) (l : LinkStatus)
    (so ao : Bool) (s : SysState)
    (h : ¬(c = true ∧ l = LinkStatus.upInternet ∧
        s.iotHubClientAuthenticationState =
          IoTHubClientAuthenticationState.notAuthenticated)) :
    (step (Event.azureTick c l so ao) s).azureIoTPollPeriodSeconds =
      s.azureIoTPollPeriodSeconds := by
  obtain ⟨ec, auth, pp, tp, tc, lon, lout, po, it, bs, att, twp⟩ := s
  unfold step AzureTimerEventHandler SendSimulatedTelemetry
  cases c <;> cases l <;> cases auth <;> cases ao <;>
    simp_all <;> split_ifs <;> rfl

/-- In the source the one-shot insulin timer is never armed: dispatch
leaves `insulinTimer` untouched, every other handler leaves it untouched
or disarms it, so from the initialized state (NULL `insulinToInject`) it
is `none` in every reachable state. -/
theorem SetUp_insulin_frame (so : Bool) (s : SysState) :
    (SetUpAzureIoTHubClient so s).insulinTimer = s.insulinTimer := by
  unfold SetUpAzureIoTHubClient
  cases so <;> rfl

theorem SendTel_insulin_frame (a : Bool) (s : SysState) :
    (SendSimulatedTelemetry a s).insulinTimer = s.insulinTimer := by
  unfold SendSimulatedTelemetry
  cases a <;> rfl

theorem AzureTick_insulin_frame (c : Bool) (l : LinkStatus) (so ao : Bool)
    (s : SysState) :
    (AzureTimerEventHandler c l so ao s).insulinTimer = s.insulinTimer := by
  unfold AzureTimerEventHandler
  cases c with
  | false => rfl
  | true =>
    simp only [Bool.true_eq_false, if_false, ite_false]
    split_ifs <;> simp [SetUp_insulin_frame, SendTel_insulin_frame]

theorem ButtonPoll_insulin_frame (c : Bool) (r : Option GPIO_Value)
    (s : SysState) :
    (ButtonPollTimerEventHandler c r s).insulinTimer = s.insulinTimer := by
  unfold ButtonPollTimerEventHandler
  cases c <;> cases r <;> rfl

theorem ConnStatus_insulin_frame (b : Bool) (s : SysState) :
    (ConnectionStatusCallback b s).insulinTimer = s.insulinTimer := by
  unfold ConnectionStatusCallback
  cases b <;> rfl

theorem Twin_insulin_frame (n : Nat) (p : Option (Option Bool))
    (s : SysState) :
    (DeviceTwinCallback n p s).insulinTimer = s.insulinTimer := by
  unfold DeviceTwinCallback
  rcases p with _ | (_ | b) <;> split <;> rfl

theorem HwMethod_insulin_frame (name : String) (payload : List Char)
    (s : SysState) :
    (Hw.DeviceMethodCallback name payload s).1.insulinTimer =
      s.insulinTimer := by
  unfold Hw.DeviceMethodCallback
  split_ifs <;> rfl

theorem step_insulinTimer_none (e : Event) (s : SysState)
    (h : s.insulinTimer = none) : (step e s).insulinTimer = none := by
  cases e with
  | azureTick c l so ao =>
    rw [show step (Event.azureTick c l so ao) s =
        AzureTimerEventHandler c l so ao s from rfl,
      AzureTick_insulin_frame]
    exact h
  | buttonPoll c r =>
    rw [show step (Event.buttonPoll c r) s =
        ButtonPollTimerEventHandler c r s from rfl,
      ButtonPoll_insulin_frame]
    exact h
  | connStatus b =>
    rw [show step (Event.connStatus b) s = ConnectionStatusCallback b s
        from rfl, ConnStatus_insulin_frame]
    exact h
  | methodCall name p =>
    rw [show step (Event.methodCall name p) s =
        (Hw.DeviceMethodCallback name p s).1 from rfl,
      HwMethod_insulin_frame]
    exact h
  | twinUpdate n p =>
    rw [show step (Event.twinUpdate n p) s = DeviceTwinCallback n p s
        from rfl, Twin_insulin_frame]
    exact h
  | insulinFire c =>
    cases c with
    | false => exact h
    | true => rfl

theorem processEvents_insulinTimer_none (events : List Event) :
    ∀ s : SysState, s.insulinTimer = none →
      (processEvents events s).insulinTimer = none := by
  induction events with
  | nil => exact fun s h => h
  | cons e es ih =>
    intro s h
    unfold processEvents
    split_ifs with hc
    · exact ih (step e s) (step_insulinTimer_none e s h)
    · exact h

/-- Claim C1 describes the intended behavior, but the code does not
implement it: dispatching InjectInsulin (here with payload 500 in the
idle initialized state) drives the pump output high yet arms no one-shot
timer.  The timer created with handler `InsulinTimerEventHandler` is
discarded disarmed (hardwarefunctions.h line 200), `insulinToInject`
stays NULL (line 201 arms a NULL handle), dispatch never changes the
armed state, and in every execution from the initialized state the timer
stays unarmed — a firing of the claimed shutoff timer is never
deliverable, so nothing ever switches the pump off. -/
theorem C1_no_shutoff_timer_armed :
    ((step (Event.methodCall methodInjectInsulin (['5', '0', '0']))
        initialAzureState).pumpOutput = GPIO_Value.high) ∧
    ((step (Event.methodCall methodInjectInsulin (['5', '0', '0']))
        initialAzureState).insulinTimer = none) ∧
    (∀ (name : String) (payload : List Char) (s : SysState),
      (Hw.DeviceMethodCallback name payload s).1.insulinTimer =
        s.insulinTimer) ∧
    (∀ events : List Event,
      (processEvents events initialAzureState).insulinTimer = none ∧
      insulinFireDeliverable (processEvents events initialAzureState) =
        false) := by
  refine ⟨by decide, by decide,
    fun name payload s => HwMethod_insulin_frame name payload s, ?_⟩
  intro events
  have h := processEvents_insulinTimer_none events initialAzureState rfl
  refine ⟨h, ?_⟩
  unfold insulinFireDeliverable
  rw [h]
  rfl

/-- Claim C3 (amended): the backoff period is reset to the default only at
a tick step on which the synchronous client setup succeeds — a step that
moves the connectivity state to authenticationInitiated, not to
authenticated — while the asynchronous connection-status notification
(the transition to authenticated) never modifies the period. -/
theorem C3_reset_only_on_setup_success :
    (∀ (b : Bool) (s : SysState),
      (step (Event.connStatus b) s).azureIoTPollPeriodSeconds =
        s.azureIoTPollPeriodSeconds) ∧
    (∀ (e : Event) (s : SysState),
      s.azureIoTPollPeriodSeconds ≠ AzureIoTDefaultPollPeriodSeconds →
      (step e s).azureIoTPollPeriodSeconds = AzureIoTDefaultPollPeriodSeconds →
      (∃ ao, e = Event.azureTick true LinkStatus.upInternet true ao) ∧
      s.iotHubClientAuthenticationState =
        IoTHubClientAuthenticationState.notAuthenticated ∧
      (step e s).iotHubClientAuthenticationState =
        IoTHubClientAuthenticationState.authenticationInitiated) := by
  refine ⟨fun b s => ConnStatus_period_frame b s, ?_⟩
  intro e s hne hreset
  cases e with
  | azureTick c l so ao =>
    by_cases hc : c = true ∧ l = LinkStatus.upInternet ∧
        s.iotHubClientAuthenticationState =
          IoTHubClientAuthenticationState.notAuthenticated
    · obtain ⟨hc1, hc2, hc3⟩ := hc
      subst hc1
      subst hc2
      cases so with
      | false =>
        rw [failedTick_eq ao s hc3] at hreset
        have hr : nextBackoff s.azureIoTPollPeriodSeconds =
            AzureIoTDefaultPollPeriodSeconds := hreset
        exfalso
        unfold nextBackoff at hr
        rw [if_neg hne] at hr
        unfold AzureIoTDefaultPollPeriodSeconds
          AzureIoTMaxReconnectPeriodSeconds at hr
        revert hr
        split_ifs <;> omega
      | true =>
        refine ⟨⟨ao, rfl⟩, hc3, ?_⟩
        rw [succTick_eq ao s hc3]
    · rw [AzureTick_period_frame_noSetup c l so ao s hc] at hreset
      exact absurd hreset hne
  | buttonPoll c r =>
    rw [show step (Event.buttonPoll c r) s = ButtonPollTimerEventHandler c r s
        from rfl, ButtonPoll_period_frame c r s] at hreset
    exact absurd hreset hne
  | connStatus b =>
    rw [show step (Event.connStatus b) s = ConnectionStatusCallback b s
        from rfl, ConnStatus_period_frame b s] at hreset
    exact absurd hreset hne
  | methodCall name p =>
    rw [show step (Event.methodCall name p) s =
        (Hw.DeviceMethodCallback name p s).1 from rfl,
      HwMethod_period_frame name p s] at hreset
    exact absurd hreset hne
  | twinUpdate n p =>
    rw [show step (Event.twinUpdate n p) s = DeviceTwinCallback n p s
        from rfl, Twin_period_frame n p s] at hreset
    exact absurd hreset hne
  | insulinFire c =>
    rw [show step (Event.insulinFire c) s = Hw.InsulinTimerEventHandler c s
        from rfl, InsulinFire_period_frame c s] at hreset
    exact absurd hreset hne

/-- Claim C3 is false as stated: at a state with backoff period 60 a tick
with a successful client setup resets the period to the default, yet this
step does not move the connectivity state to authenticated (it moves it to
authenticationInitiated), and the reset thus happens at a step other than
the asynchronous success notification. -/
theorem C3_counterexample :
    ((step (Event.azureTick true LinkStatus.upInternet true true)
        { initialAzureState with
            azureIoTPollPeriodSeconds := 60,
            azureTimerPeriod := 60 }).azureIoTPollPeriodSeconds =
      AzureIoTDefaultPollPeriodSeconds) ∧
    ({ initialAzureState with
        azureIoTPollPeriodSeconds := 60,
        azureTimerPeriod := 60 } : SysState).azureIoTPollPeriodSeconds ≠
      AzureIoTDefaultPollPeriodSeconds ∧
    ((step (Event.azureTick true LinkStatus.upInternet true true)
        { initialAzureState with
            azureIoTPollPeriodSeconds := 60,
            azureTimerPeriod := 60 }).iotHubClientAuthenticationState ≠
      IoTHubClientAuthenticationState.authenticated) := by
  decide

/-- Instance of the amended C3 theorem at a concrete backed-off state. -/
theorem C3_witness :
    (∃ ao, Event.azureTick true LinkStatus.upInternet true true =
      Event.azureTick true LinkStatus.upInternet true ao) ∧
    ({ initialAzureState with
        azureIoTPollPeriodSeconds := 60,
        azureTimerPeriod := 60 } : SysState).iotHubClientAuthenticationState =
      IoTHubClientAuthenticationState.notAuthenticated ∧
    (step (Event.azureTick true LinkStatus.upInternet true true)
        { initialAzureState with
            azureIoTPollPeriodSeconds := 60,
            azureTimerPeriod := 60 }).iotHubClientAuthenticationState =
      IoTHubClientAuthenticationState.authenticationInitiated :=
  C3_reset_only_on_setup_success.2
    (Event.azureTick true LinkStatus.upInternet true true)
    { initialAzureState with
        azureIoTPollPeriodSeconds := 60, azureTimerPeriod := 60 }
    (by decide) (by decide)

/-- Claim C5 (amended): remote-command dispatch performs no payload-size
validation — in both variants the returned status code depends only on
the method name, never on the payload — and the size-validated rejection
with a fatal-level code exists only on the device-twin path, whose code
`ExitCode_PayloadSize_TooLarge` is distinct from the -1 returned for an
unrecognized command. -/
theorem C5_dispatch_no_size_validation :
    (∀ (name : String) (p q : List Char) (s : SysState),
      (Hw.DeviceMethodCallback name p s).2.result =
        (Hw.DeviceMethodCallback name q s).2.result) ∧
    (∀ (name : String) (p q : List Char) (s : SysState),
      (Sim.DeviceMethodCallback name p s).2.result =
        (Sim.DeviceMethodCallback name q s).2.result) ∧
    (∀ (payloadSize : Nat) (parsed : Option (Option Bool)) (s : SysState),
      payloadSize > MAX_DEVICE_TWIN_PAYLOAD_SIZE →
      (DeviceTwinCallback payloadSize parsed s).exitCode =
        ExitCode_PayloadSize_TooLarge) ∧
    ((ExitCode_PayloadSize_TooLarge : Int) ≠ -1) := by
  refine ⟨?_, ?_, ?_, by decide⟩
  · intro name p q s
    unfold Hw.DeviceMethodCallback
    split_ifs <;> rfl
  · intro name p q s
    unfold Sim.DeviceMethodCallback
    split_ifs <;> rfl
  · intro ps parsed s h
    unfold DeviceTwinCallback
    rw [if_pos h]

/-- Claim C5 is false as stated: dispatch performs no payload-size
validation and an oversized payload does not yield a fatal-level error
code — a 513-byte TriggerAlarm payload is dispatched exactly like an
empty one in both variants, returning the normal success status 200 with
all state untouched. -/
theorem C5_counterexample :
    ((Hw.DeviceMethodCallback methodTriggerAlarm
        (List.replicate 513 ('0')) initialAzureState).2.result =
      some 200) ∧
    ((Hw.DeviceMethodCallback methodTriggerAlarm
        (List.replicate 513 ('0')) initialAzureState).1 =
      initialAzureState) ∧
    ((Hw.DeviceMethodCallback methodTriggerAlarm [] initialAzureState).2.result =
      some 200) ∧
    ((Sim.DeviceMethodCallback methodTriggerAlarm
        (List.replicate 513 ('0')) initialAzureState).2.result =
      some 200) ∧
    513 > MAX_DEVICE_TWIN_PAYLOAD_SIZE := by
  have hd : Hw.DeviceMethodCallback methodTriggerAlarm
      (List.replicate 513 ('0')) initialAzureState =
      (initialAzureState,
        { response := "\"Alarm Triggered\"", result := some 200 }) := by
    unfold Hw.DeviceMethodCallback
    rw [if_pos rfl]
  have hs : Sim.DeviceMethodCallback methodTriggerAlarm
      (List.replicate 513 ('0')) initialAzureState =
      (initialAzureState,
        { response := "\"Alarm Triggered\"", result := some 200 }) := by
    unfold Sim.DeviceMethodCallback
    rw [if_pos rfl]
  exact ⟨by rw [hd], by rw [hd], by decide, by rw [hs], by decide⟩

/-- Instance of the amended C5 theorem: the twin path at payload size 513. -/
theorem C5_witness :
    (513 > MAX_DEVICE_TWIN_PAYLOAD_SIZE) ∧
    (DeviceTwinCallback 513 (some (some true)) initialAzureState).exitCode =
      ExitCode_PayloadSize_TooLarge :=
  ⟨by decide,
    C5_dispatch_no_size_validation.2.2.1 513 (some (some true))
      initialAzureState (by decide)⟩

/-- Claim C7 is false as stated: the very first initialization action is
the SIGTERM handler registration, not the pump setup; even the first
peripheral opened is the button. -/
theorem C7_counterexample :
    List.head? InitPeripheralsAndHandlers_order ≠
      some (InitStep.openPumpOutput GPIO_Value.low) := by
  decide

/-- Claim C7 (amended): initialization does open the pump output with its
off (Low) initial value — and never with any other value — but as the
eighth action, after the signal handler, event loop, button, status LED
and ADC setup, not as the very first action. -/
theorem C7_pump_initialized_off_not_first :
    (InitPeripheralsAndHandlers_order[7]? =
      some (InitStep.openPumpOutput GPIO_Value.low)) ∧
    (∀ v, InitStep.openPumpOutput v ∈ InitPeripheralsAndHandlers_order →
      v = GPIO_Value.low) ∧
    (List.take 7 InitPeripheralsAndHandlers_order =
      [InitStep.setupSigTermHandler, InitStep.createEventLoop,
       InitStep.openButtonInput,
       InitStep.openStatusLedOutput GPIO_Value.high,
       InitStep.openAdcController, InitStep.getAdcSampleBitCount,
       InitStep.setAdcReferenceVoltage]) := by
  refine ⟨by decide, ?_, by decide⟩
  intro v hv
  cases v with
  | low => rfl
  | high => exact absurd hv (by decide)

/-- Claim C8 is false in its restore-pump part: running teardown from a
state in which the pump output is high leaves it high — no teardown
action drives the pump low. -/
theorem C8_counterexample :
    (ClosePeripheralsAndHandlers
        { initialAzureState with
            pumpOutput := GPIO_Value.high }).pumpOutput ≠
      GPIO_Value.low := by
  decide

/-- Claim C8 (amended): teardown disposes the three timers and closes the
event loop first, then drives the status LED to its off (High) value, and
then closes the four peripheral handles, the pump handle last; the pump
output itself is never driven during teardown and retains whatever value
it had. -/
theorem C8_teardown_pump_not_driven :
    (∀ s : SysState,
      (ClosePeripheralsAndHandlers s).pumpOutput = s.pumpOutput) ∧
    (∀ s : SysState,
      (ClosePeripheralsAndHandlers s).insulinTimer = none ∧
      (ClosePeripheralsAndHandlers s).statusLedOutput = GPIO_Value.high) ∧
    (CloseStep.setPump GPIO_Value.low ∉ ClosePeripheralsAndHandlers_order ∧
     CloseStep.setPump GPIO_Value.high ∉ ClosePeripheralsAndHandlers_order) ∧
    (List.take 4 ClosePeripheralsAndHandlers_order =
      [CloseStep.disposeButtonPollTimer, CloseStep.disposeAzureTimer,
       CloseStep.disposeInsulinTimer, CloseStep.closeEventLoop]) ∧
    (ClosePeripheralsAndHandlers_order[4]? =
      some (CloseStep.setStatusLed GPIO_Value.high)) ∧
    (List.drop 5 ClosePeripheralsAndHandlers_order =
      [CloseStep.closeButtonFd, CloseStep.closeStatusLedFd,
       CloseStep.closeAdcFd, CloseStep.closePumpFd]) :=
  ⟨fun _ => rfl, fun _ => ⟨rfl, rfl⟩, ⟨by decide, by decide⟩,
    by decide, by decide, by decide⟩

/-- Instance of the amended C7 theorem at the Low-valued pump action. -/
theorem C7_witness :
    (InitStep.openPumpOutput GPIO_Value.low ∈
      InitPeripheralsAndHandlers_order) ∧
    GPIO_Value.low = GPIO_Value.low :=
  ⟨by decide,
    C7_pump_initialized_off_not_first.2.1 GPIO_Value.low (by decide)⟩

/-- Instance of the amended C8 theorem at a state with the pump high. -/
theorem C8_witness :
    (ClosePeripheralsAndHandlers
        { initialAzureState with pumpOutput := GPIO_Value.high }).pumpOutput =
      ({ initialAzureState with
          pumpOutput := GPIO_Value.high } : SysState).pumpOutput :=
  C8_teardown_pump_not_driven.1
    { initialAzureState with pumpOutput := GPIO_Value.high }

end GluckSphere
